import Mathlib

/-!
Verification development for the ttg-distributed-compute worker runtime.

The Python sources under src/ are shallowly embedded below: pure functions
become Lean functions, stateful queue operations become explicit state
passing on record types, machine integers become Nat with explicit
`% 2^32` where overflow matters, and Python floats produced by parsing
short decimal strings are modelled as exact rationals.  Timestamps
(`datetime.now(...)`) are threaded as explicit `String` parameters, and
the shutdown flag set by the signal handler is modelled as the iteration
index at which `kill_now` becomes true.
-/

namespace TTG

/-! ## hashlib.sha256: the SHA-256 digest used by the compute kernel.

The workers call `hashlib.sha256(input_string.encode()).hexdigest()[:16]`.
`hashlib` is a library the repository consumes, so the full FIPS 180-4
SHA-256 algorithm is embedded here as an executable function on byte
lists, with 32-bit words represented as `Nat` reduced modulo `2 ^ 32`. -/

def M32 : Nat := 4294967296

def add32 (a b : Nat) : Nat := (a + b) % M32

/-- Rotate a 32-bit word right by `n` bits. -/
def rotr32 (x n : Nat) : Nat := ((x >>> n) ||| (x <<< (32 - n))) % M32

/-- Bitwise complement on 32-bit words. -/
def not32 (x : Nat) : Nat := x ^^^ 4294967295

def shaCh (e f g : Nat) : Nat := (e &&& f) ^^^ (not32 e &&& g)

def shaMaj (a b c : Nat) : Nat := (a &&& b) ^^^ (a &&& c) ^^^ (b &&& c)

def bigSigma0 (a : Nat) : Nat := rotr32 a 2 ^^^ rotr32 a 13 ^^^ rotr32 a 22

def bigSigma1 (e : Nat) : Nat := rotr32 e 6 ^^^ rotr32 e 11 ^^^ rotr32 e 25

def smallSigma0 (x : Nat) : Nat := rotr32 x 7 ^^^ rotr32 x 18 ^^^ (x >>> 3)

def smallSigma1 (x : Nat) : Nat := rotr32 x 17 ^^^ rotr32 x 19 ^^^ (x >>> 10)

/-- The 64 SHA-256 round constants. -/
def shaK : List Nat :=
  [1116352408, 1899447441, 3049323471, 3921009573, 961987163, 1508970993,
   2453635748, 2870763221, 3624381080, 310598401, 607225278, 1426881987,
   1925078388, 2162078206, 2614888103, 3248222580, 3835390401, 4022224774,
   264347078, 604807628, 770255983, 1249150122, 1555081692, 1996064986,
   2554220882, 2821834349, 2952996808, 3210313671, 3336571891, 3584528711,
   113926993, 338241895, 666307205, 773529912, 1294757372, 1396182291,
   1695183700, 1986661051, 2177026350, 2456956037, 2730485921, 2820302411,
   3259730800, 3345764771, 3516065817, 3600352804, 4094571909, 275423344,
   430227734, 506948616, 659060556, 883997877, 958139571, 1322822218,
   1537002063, 1747873779, 1955562222, 2024104815, 2227730452, 2361852424,
   2428436474, 2756734187, 3204031479, 3329325298]

/-- The eight 32-bit words of a SHA-256 state. -/
structure Hash8 where
  h0 : Nat
  h1 : Nat
  h2 : Nat
  h3 : Nat
  h4 : Nat
  h5 : Nat
  h6 : Nat
  h7 : Nat
deriving DecidableEq

/-- The SHA-256 initial hash value. -/
def shaH0 : Hash8 :=
  ⟨1779033703, 3144134277, 1013904242, 2773480762, 1359893119, 2600822924, 528734635, 1541459225⟩

/-- Working registers of the compression loop. -/
structure Regs where
  a : Nat
  b : Nat
  c : Nat
  d : Nat
  e : Nat
  f : Nat
  g : Nat
  h : Nat
deriving DecidableEq

/-- One round of the SHA-256 compression function. -/
def shaRound (r : Regs) (ki wi : Nat) : Regs :=
  let t1 := (r.h + bigSigma1 r.e + shaCh r.e r.f r.g + ki + wi) % M32
  let t2 := (bigSigma0 r.a + shaMaj r.a r.b r.c) % M32
  { a := (t1 + t2) % M32, b := r.a, c := r.b, d := r.c,
    e := (r.d + t1) % M32, f := r.e, g := r.f, h := r.g }

/-- Big-endian word from up to four bytes. -/
def bytesToWord (bs : List Nat) : Nat := bs.foldl (fun a b => a * 256 + b) 0

/-- The sixteen message words of one 64-byte block. -/
def blockWords (block : List Nat) : List Nat :=
  (List.range 16).map fun i => bytesToWord ((block.drop (4 * i)).take 4)

/-- The next word of the message schedule, from the words so far. -/
def scheduleNext (w : List Nat) : Nat :=
  let n := w.length
  (smallSigma1 (w.getD (n - 2) 0) + w.getD (n - 7) 0 +
   smallSigma0 (w.getD (n - 15) 0) + w.getD (n - 16) 0) % M32

/-- Extend the sixteen block words to the 64-word message schedule. -/
def schedule (w16 : List Nat) : List Nat :=
  (List.range 48).foldl (fun w _ => w ++ [scheduleNext w]) w16

/-- Compress one 64-byte block into the running hash state. -/
def compressBlock (H : Hash8) (block : List Nat) : Hash8 :=
  let ws := schedule (blockWords block)
  let r0 : Regs := ⟨H.h0, H.h1, H.h2, H.h3, H.h4, H.h5, H.h6, H.h7⟩
  let r := (List.range 64).foldl (fun r i => shaRound r (shaK.getD i 0) (ws.getD i 0)) r0
  ⟨add32 H.h0 r.a, add32 H.h1 r.b, add32 H.h2 r.c, add32 H.h3 r.d,
   add32 H.h4 r.e, add32 H.h5 r.f, add32 H.h6 r.g, add32 H.h7 r.h⟩

/-- Big-endian byte string of a value, `n` bytes wide. -/
def beBytes (n v : Nat) : List Nat :=
  (List.range n).map fun i => v / 256 ^ (n - 1 - i) % 256

/-- SHA-256 padding: a `0x80` byte, zeros to 56 mod 64, then the bit length. -/
def sha256pad (msg : List Nat) : List Nat :=
  let l := msg.length
  let z := (119 - l % 64) % 64
  msg ++ [128] ++ List.replicate z 0 ++ beBytes 8 (8 * l)

/-- Split a byte list into its 64-byte blocks. -/
def toBlocks (l : List Nat) : List (List Nat) :=
  if h : l = [] then [] else l.take 64 :: toBlocks (l.drop 64)
termination_by l.length
decreasing_by
  simp only [List.length_drop]
  have := List.length_pos.mpr h
  omega

/-- SHA-256 of a byte list. -/
def sha256 (msg : List Nat) : Hash8 :=
  (toBlocks (sha256pad msg)).foldl compressBlock shaH0

/-- Lowercase hexadecimal digit, as produced by `hexdigest()`. -/
def hexChar (n : Nat) : Char :=
  if n < 10 then Char.ofNat (48 + n) else Char.ofNat (87 + n)

/-- Eight lowercase hex characters of one 32-bit word. -/
def wordHex (w : Nat) : List Char :=
  [hexChar (w / 268435456 % 16), hexChar (w / 16777216 % 16),
   hexChar (w / 1048576 % 16), hexChar (w / 65536 % 16),
   hexChar (w / 4096 % 16), hexChar (w / 256 % 16),
   hexChar (w / 16 % 16), hexChar (w % 16)]

/-- The 64 hex characters of a hash state. -/
def hash8Hex (H : Hash8) : List Char :=
  wordHex H.h0 ++ wordHex H.h1 ++ wordHex H.h2 ++ wordHex H.h3 ++
  wordHex H.h4 ++ wordHex H.h5 ++ wordHex H.h6 ++ wordHex H.h7

/-- `hashlib.sha256(bytes).hexdigest()` as a character list. -/
def sha256hex (msg : List Nat) : List Char := hash8Hex (sha256 msg)

/-- `str.encode()` for the ASCII strings the workers hash: UTF-8 bytes,
which for ASCII are the code points. -/
def strBytes (s : String) : List Nat := s.toList.map Char.toNat

/-- The sixteen lowercase hexadecimal digits. -/
def hexDigits : List Char := "0123456789abcdef".toList

/-! ## Python float literals from decimal strings.

The kernel computes `float(f"0.{param_id % 100}")`.  Floats are modelled
as exact rationals: the parsed value of the decimal string, without the
binary rounding a Python float would apply. -/

/-- Value of a decimal digit string. -/
def digitsVal (cs : List Char) : Nat := cs.foldl (fun a c => a * 10 + (c.toNat - 48)) 0

/-- `float(s)` for the nonnegative decimal strings built by the workers:
an integer part, then optionally a dot (code point 46) and fraction digits. -/
def pyFloat (s : String) : ℚ :=
  let p := s.toList.span (fun c => c ≠ Char.ofNat 46)
  match p.2 with
  | [] => (digitsVal p.1 : ℚ)
  | _ :: fp => (digitsVal p.1 : ℚ) + (digitsVal fp : ℚ) / 10 ^ fp.length

/-- The decimal fraction written `0.{d}`: the digits of `d` after the point. -/
def fractional (d : Nat) : ℚ := (d : ℚ) / 10 ^ (Nat.repr d).length

/-! ## The compute kernel (worker.py `_compute_parameter`).

Both worker classes carry the same body.  `time.sleep` is elided (it does
not affect the returned record) and `datetime.now(timezone.utc)` is the
explicit `now` argument. -/

/-- The per-parameter result record. -/
structure ParamResult where
  param_id : Nat
  result : ℚ
  hash : List Char
  worker_id : Nat
  timestamp : String
deriving DecidableEq

namespace QueueWorker

/-- The string the kernel hashes: `f"param_{param_id}_worker_{worker_id}"`. -/
def inputString (param_id worker_id : Nat) : String :=
  "param_" ++ Nat.repr param_id ++ "_worker_" ++ Nat.repr worker_id

/-- `QueueWorker._compute_parameter` (worker.py lines 588-618). -/
def computeParameter (param_id worker_id : Nat) (now : String) : ParamResult :=
  let hash_result := (sha256hex (strBytes (inputString param_id worker_id))).take 16
  let numerical_result : ℚ :=
    ((param_id * 7 + 13) % 1000 : Nat) + pyFloat ("0." ++ Nat.repr (param_id % 100))
  { param_id := param_id, result := numerical_result, hash := hash_result,
    worker_id := worker_id, timestamp := now }

end QueueWorker

namespace DistributedWorker

/-- The string the kernel hashes, as in `QueueWorker`. -/
def inputString (param_id worker_id : Nat) : String :=
  "param_" ++ Nat.repr param_id ++ "_worker_" ++ Nat.repr worker_id

/-- `DistributedWorker._compute_parameter` (worker.py lines 167-203):
the same computation as the queue worker. -/
def computeParameter (param_id worker_id : Nat) (now : String) : ParamResult :=
  let hash_result := (sha256hex (strBytes (inputString param_id worker_id))).take 16
  let numerical_result : ℚ :=
    ((param_id * 7 + 13) % 1000 : Nat) + pyFloat ("0." ++ Nat.repr (param_id % 100))
  { param_id := param_id, result := numerical_result, hash := hash_result,
    worker_id := worker_id, timestamp := now }

end DistributedWorker

set_option maxRecDepth 4096

/-- For `d < 100`, splitting the built string `"0." ++ str(d)` at the dot
yields the single zero digit and the digits of `d`, and the decimal digits
of `d` evaluate back to `d`. -/
lemma repr_span_dot : ∀ d, d < 100 →
    (("0." ++ Nat.repr d).toList.span (fun c => c ≠ Char.ofNat 46) =
      (['0'], Char.ofNat 46 :: (Nat.repr d).toList)) ∧
    digitsVal (Nat.repr d).toList = d := by decide

/-- `float(f"0.{d}")` is the decimal fraction `0.{d}`, for `d < 100`. -/
lemma pyFloat_fraction (d : Nat) (hd : d < 100) :
    pyFloat ("0." ++ Nat.repr d) = fractional d := by
  have h := repr_span_dot d hd
  unfold pyFloat fractional
  rw [h.1]
  have hz : digitsVal ['0'] = 0 := by decide
  dsimp only
  rw [hz, h.2]
  have hlen : (Nat.repr d).length = (Nat.repr d).toList.length := rfl
  rw [hlen]
  push_cast
  ring

/-! ## Chunk processing (worker.py `QueueWorker._process_chunk`).

The shutdown flag raised by the signal handler is modelled by `sig`: the
loop iteration index at which `self.killer.kill_now` starts reading true
(`none` when no signal arrives during the chunk). -/

/-- The value of `self.killer.kill_now` observed at loop iteration `i`. -/
def killNow (sig : Option Nat) (i : Nat) : Bool :=
  match sig with
  | none => false
  | some t => t ≤ i

/-- A task as the worker sees it after `get_next_task`: the chunk fields it
reads plus the delivery handle used for ack. -/
structure ClaimedTask where
  chunk_id : Nat
  start_param : Nat
  end_param : Nat
  message_id : Nat
deriving DecidableEq

/-- The nested `result_data` summary built at the end of `_process_chunk`. -/
structure ResultSummary where
  sum : ℚ
  count : Nat
  min : ℚ
  max : ℚ
  avg : ℚ
deriving DecidableEq

/-- What `_process_chunk` returns (the wall-clock duration is elided). -/
structure ChunkResult where
  chunk_id : Nat
  params_processed : Nat
  result_summary : ResultSummary
  interrupted : Bool
deriving DecidableEq

namespace QueueWorker

/-- The per-parameter loop of `_process_chunk`: on each iteration the
shutdown flag is checked and the loop breaks if it is raised, otherwise
the kernel runs on the next parameter id. -/
def chunkLoop (sig : Option Nat) (worker_id : Nat) (now : String) :
    List Nat → Nat → List ParamResult
  | [], _ => []
  | p :: ps, i =>
    if killNow sig i then []
    else computeParameter p worker_id now :: chunkLoop sig worker_id now ps (i + 1)

/-- `QueueWorker._process_chunk` (worker.py lines 620-688), after the
fault-simulation check (a simulated fault raises before this point and is
handled by the caller).  The min, max and avg of the summary are guarded
by `if results else 0`. -/
def processChunk (task : ClaimedTask) (worker_id : Nat) (now : String)
    (sig : Option Nat) : ChunkResult :=
  let start_param := task.start_param
  let end_param := task.end_param
  let results := chunkLoop sig worker_id now (List.range' start_param (end_param - start_param)) 0
  let vals := results.map (·.result)
  let result_sum := vals.sum
  let result_summary : ResultSummary :=
    { sum := result_sum,
      count := results.length,
      min := if results.isEmpty then 0 else (vals.min?).getD 0,
      max := if results.isEmpty then 0 else (vals.max?).getD 0,
      avg := if results.isEmpty then 0 else result_sum / results.length }
  { chunk_id := task.chunk_id,
    params_processed := results.length,
    result_summary := result_summary,
    interrupted := killNow sig results.length }

end QueueWorker

/-- A backend call made while handling one claimed task. -/
inductive Effect where
  | publish (chunk_id : Nat) (result_data : ResultSummary)
  | ack (message_id : Nat)
  | nack (message_id : Nat) (reason : String)
deriving DecidableEq

def Effect.isPublish : Effect → Bool
  | .publish _ _ => true
  | _ => false

def Effect.isAck : Effect → Bool
  | .ack _ => true
  | _ => false

namespace QueueWorker

/-- The try block of `_process_tasks` for one claimed task (worker.py
lines 836-864): process the chunk, publish the result, ack; on an
exception (here: the simulated fault raised before the loop, carried as
`fault = some reason`) call `nack_task` when the backend has one.
`hasNack` is `hasattr(self.queue, "nack_task")`: true on the broker
backend, false on the streams backend. -/
def handleClaimedTask (worker_id : Nat) (now : String) (task : ClaimedTask)
    (sig : Option Nat) (fault : Option String) (hasNack : Bool) : List Effect :=
  match fault with
  | some reason => if hasNack then [.nack task.message_id reason] else []
  | none =>
    let result := processChunk task worker_id now sig
    [.publish task.chunk_id result.result_summary, .ack task.message_id]

end QueueWorker

/-! ## The main consume loop (worker.py `QueueWorker._process_tasks`).

One loop iteration is modelled as a function of the loop state and an
environment record carrying what the backend answers during that
iteration.  Wall-clock seconds are Nat. -/

/-- Configuration read from the environment at startup. -/
structure LoopCfg where
  idle_timeout_seconds : Nat
  stale_check_interval_seconds : Nat
deriving DecidableEq

/-- `get_next_task` blocks for 5000 ms; the loop hard-codes 5 seconds. -/
def blockTimeSeconds : Nat := 5

/-- `max_empty_reads = max(1, idle_timeout_seconds // 5)`. -/
def maxEmptyReads (cfg : LoopCfg) : Nat := max 1 (cfg.idle_timeout_seconds / blockTimeSeconds)

/-- The mutable loop state. -/
structure LoopState where
  consecutive_empty : Nat
  last_stale_check_time : Nat
deriving DecidableEq

namespace QueueWorker

/-- `_check_and_claim_stale_tasks` (worker.py lines 690-767): gated by the
stale-check interval; when the gate passes it stamps the check time,
claims up to 5 stale tasks and processes them inline.  `claimed` is the
number of stale tasks the backend hands over when the call goes through.
Returns the new state, the count recovered, and whether the backend
reclaim actually ran. -/
def checkAndClaimStale (cfg : LoopCfg) (st : LoopState) (now claimed : Nat) :
    LoopState × Nat × Bool :=
  if now - st.last_stale_check_time < cfg.stale_check_interval_seconds then (st, 0, false)
  else ({ st with last_stale_check_time := now }, claimed, true)

end QueueWorker

/-- What the backend answers during one iteration of the main loop:
`now` at the periodic stale check, the stale count it would hand over
there, the claim outcome, then `now2` and the stale count for the forced
check on the idle-exit path. -/
structure IterEnv where
  now : Nat
  periodicStale : Nat
  claimed : Option ClaimedTask
  now2 : Nat
  forcedStale : Nat
deriving DecidableEq

/-- Outcome of one loop iteration. -/
structure IterResult where
  state : LoopState
  exited : Bool
  forcedReclaimed : Bool
deriving DecidableEq

namespace QueueWorker

/-- One iteration of the `while not self.killer.kill_now` loop of
`_process_tasks` (worker.py lines 796-872), for an iteration during which
the shutdown flag stays false.  Task handling effects are modelled by
`handleClaimedTask`; here only the counter and exit logic is kept. -/
def loopIter (cfg : LoopCfg) (st : LoopState) (env : IterEnv) : IterResult :=
  let c1 := checkAndClaimStale cfg st env.now env.periodicStale
  let st1 := if 0 < c1.2.1 then { c1.1 with consecutive_empty := 0 } else c1.1
  match env.claimed with
  | some _ => { state := { st1 with consecutive_empty := 0 }, exited := false, forcedReclaimed := false }
  | none =>
    let st2 := { st1 with consecutive_empty := st1.consecutive_empty + 1 }
    if maxEmptyReads cfg ≤ st2.consecutive_empty then
      let c2 := checkAndClaimStale cfg { st2 with last_stale_check_time := 0 } env.now2 env.forcedStale
      if 0 < c2.2.1 then
        { state := { c2.1 with consecutive_empty := 0 }, exited := false, forcedReclaimed := c2.2.2 }
      else { state := c2.1, exited := true, forcedReclaimed := c2.2.2 }
    else { state := st2, exited := false, forcedReclaimed := false }

end QueueWorker

/-! ## Bootstrap (worker.py `QueueWorker._maybe_initialize_tasks`). -/

/-- An observable bootstrap action. -/
inductive BootAction where
  | seed (total_params chunk_size : Nat) (force : Bool)
  | sleep (seconds : Nat)
deriving DecidableEq

def BootAction.isSeed : BootAction → Bool
  | .seed _ _ _ => true
  | _ => false

namespace QueueWorker

/-- `_maybe_initialize_tasks` (worker.py lines 556-586): worker 0 seeds
when the task container is empty; other workers sleep 2 seconds when it
is empty and never seed.  `initialize_tasks` is called with its default
`force=False`. -/
def maybeInitializeTasks (worker_id stream_length total_parameters chunk_size : Nat) :
    List BootAction :=
  if worker_id = 0 then
    if stream_length = 0 then [.seed total_parameters chunk_size false] else []
  else
    if stream_length = 0 then [.sleep 2] else []

end QueueWorker

/-! ## Seeding arithmetic shared by both backends. -/

/-- `num_chunks = (total_params + chunk_size - 1) // chunk_size`, the
ceiling division computed identically in queue_utils.py line 320 and
rabbitmq_queue.py line 164. -/
def numChunks (total_params chunk_size : Nat) : Nat :=
  (total_params + chunk_size - 1) / chunk_size

/-- A result record as published by `publish_result` on either backend.
`result_data` is kept as its serialized string. -/
structure ResultMsg where
  chunk_id : String
  worker_id : String
  status : String
  duration_seconds : String
  completed_at : String
  result_data : String
deriving DecidableEq

/-! ## Streams backend (queue_utils.py `TaskQueue`).

The Redis state the claims touch: the task stream entries, the result
stream entries, the consumer-group pending entry list (message ids), and
whether the consumer group exists.  Stream message ids are Nat. -/

/-- A task entry as written by `TaskQueue.initialize_tasks` (the wire
format stringifies every field; the numeric fields are kept as Nat and
`chunk_id` is the value before its five-digit zero padding). -/
structure RedisTask where
  chunk_id : Nat
  start_param : Nat
  end_param : Nat
  params_count : Nat
  total_params : Nat
  total_chunks : Nat
  created_at : String
  status : String
deriving DecidableEq

/-- The Redis containers. -/
structure RedisState where
  taskStream : List RedisTask
  resultStream : List ResultMsg
  pel : List Nat
  taskGroupExists : Bool
deriving DecidableEq

namespace TaskQueue

/-- The chunk list built by the loop of `initialize_tasks`
(queue_utils.py lines 332-351). -/
def chunkList (total_params chunk_size : Nat) (timestamp : String) : List RedisTask :=
  (List.range (numChunks total_params chunk_size)).map fun chunk_id =>
    let start_param := chunk_id * chunk_size
    let end_param := min (start_param + chunk_size) total_params
    { chunk_id := chunk_id, start_param := start_param, end_param := end_param,
      params_count := end_param - start_param, total_params := total_params,
      total_chunks := numChunks total_params chunk_size,
      created_at := timestamp, status := "pending" }

/-- `TaskQueue.initialize_tasks` (queue_utils.py lines 278-357).
`ensure_stream_exists` creates the consumer group if absent; with
`force` on a non-empty stream, `DEL ttg:tasks` drops the stream together
with its group and pending list before the group is recreated and the
chunks are added. -/
def initialize_tasks (s : RedisState) (total_params chunk_size : Nat) (force : Bool)
    (timestamp : String) : RedisState × Nat :=
  let s := { s with taskGroupExists := true }
  let current_length := s.taskStream.length
  if 0 < current_length ∧ force = false then (s, 0)
  else
    let s := if force = true ∧ 0 < current_length
             then { s with taskStream := [], pel := [] } else s
    let tasks := chunkList total_params chunk_size timestamp
    ({ s with taskStream := s.taskStream ++ tasks }, tasks.length)

/-- `TaskQueue.ack_task` (queue_utils.py lines 424-448): `XACK` removes
the message id from the pending entry list and reports how many entries
it removed; the method returns whether that count was positive. -/
def ack_task (s : RedisState) (message_id : Nat) : RedisState × Bool :=
  let ack_count : Nat := if message_id ∈ s.pel then 1 else 0
  ({ s with pel := s.pel.erase message_id }, 0 < ack_count)

/-- `TaskQueue.publish_result` (queue_utils.py lines 454-496): append one
record to the result stream. -/
def publish_result (s : RedisState) (chunk_id worker_id : String)
    (result_data : String) (duration_seconds : String) (now : String) : RedisState × Nat :=
  let msg : ResultMsg :=
    { chunk_id := chunk_id, worker_id := worker_id, status := "completed",
      duration_seconds := duration_seconds, completed_at := now, result_data := result_data }
  ({ s with resultStream := s.resultStream ++ [msg] }, s.resultStream.length)

end TaskQueue

/-! ## Broker backend (rabbitmq_queue.py `RabbitMQTaskQueue`). -/

/-- A task message as carried on the broker: the seeded fields plus the
retry bookkeeping stamped by `nack_task`.  Fields a seeded message does
not yet carry are `none`. -/
structure RabbitTask where
  chunk_id : Nat
  start_param : Nat
  end_param : Nat
  params_count : Nat
  total_params : Nat
  total_chunks : Nat
  created_at : String
  status : String
  retry_count : Nat
  last_error : Option String
  failed_at : Option String
deriving DecidableEq

/-- The broker containers, plus the unacked deliveries of this channel
(delivery tags); `queue_purge` does not touch unacked deliveries. -/
structure RabbitState where
  taskQueue : List RabbitTask
  resultQueue : List ResultMsg
  retryQueue : List RabbitTask
  dlqQueue : List RabbitTask
  inflight : List Nat
deriving DecidableEq

namespace RabbitMQTaskQueue

/-- The chunk list built by the loop of `initialize_tasks`
(rabbitmq_queue.py lines 167-191). -/
def chunkList (total_params chunk_size : Nat) (created_at : String) : List RabbitTask :=
  (List.range (numChunks total_params chunk_size)).map fun chunk_id =>
    let start_param := chunk_id * chunk_size
    let end_param := min (start_param + chunk_size) total_params
    { chunk_id := chunk_id, start_param := start_param, end_param := end_param,
      params_count := end_param - start_param, total_params := total_params,
      total_chunks := numChunks total_params chunk_size,
      created_at := created_at, status := "pending",
      retry_count := 0, last_error := none, failed_at := none }

/-- `RabbitMQTaskQueue.initialize_tasks` (rabbitmq_queue.py lines
151-194): with `force` it first purges the task, result, retry and
dead-letter queues; then, if tasks remain and `force` is false, it
returns 0, else it publishes every chunk to the task exchange. -/
def initialize_tasks (s : RabbitState) (total_params chunk_size : Nat) (force : Bool)
    (created_at : String) : RabbitState × Nat :=
  let s := if force = true
           then { s with taskQueue := [], resultQueue := [], retryQueue := [], dlqQueue := [] }
           else s
  let current_tasks := s.taskQueue.length
  if 0 < current_tasks ∧ force = false then (s, 0)
  else
    let tasks := chunkList total_params chunk_size created_at
    ({ s with taskQueue := s.taskQueue ++ tasks }, numChunks total_params chunk_size)

/-- `RabbitMQTaskQueue.ack_task` (rabbitmq_queue.py lines 212-219):
`basic_ack` settles the delivery tag. -/
def ack_task (s : RabbitState) (message_id : Nat) : RabbitState × Bool :=
  ({ s with inflight := s.inflight.erase message_id }, true)

/-- `RabbitMQTaskQueue.nack_task` (rabbitmq_queue.py lines 221-266):
republish the chunk with `retry_count` incremented, `last_error` and
`failed_at` stamped, to the retry exchange while `retry_count <
max_retries` and to the dead-letter exchange (with `status =
dead_lettered`) otherwise; then ack the original delivery. -/
def nack_task (max_retries : Nat) (s : RabbitState) (message_id : Nat)
    (task_data : RabbitTask) (reason now : String) : RabbitState × Bool :=
  let retry_count := task_data.retry_count
  let updated :=
    { task_data with retry_count := retry_count + 1, last_error := some reason, failed_at := some now }
  if retry_count < max_retries then
    ack_task { s with retryQueue := s.retryQueue ++ [updated] } message_id
  else
    let updated := { updated with status := "dead_lettered" }
    ack_task { s with dlqQueue := s.dlqQueue ++ [updated] } message_id

end RabbitMQTaskQueue

/-! ## Theorems for the claims. -/

/-- C3: on the broker backend, a nacked task with `retry_count <
max_retries` is republished on the retry path with `retry_count`
incremented by one and `last_error` set to the given reason; otherwise it
is republished on the dead-letter path with `status = dead_lettered`; in
both cases the original delivery is then positively acknowledged. -/
theorem nack_retry_deadletter_policy (max_retries : Nat) (s : RabbitState)
    (message_id : Nat) (td : RabbitTask) (reason now : String) :
    (RabbitMQTaskQueue.nack_task max_retries s message_id td reason now).2 = true ∧
    (RabbitMQTaskQueue.nack_task max_retries s message_id td reason now).1.inflight
      = s.inflight.erase message_id ∧
    (RabbitMQTaskQueue.nack_task max_retries s message_id td reason now).1.taskQueue = s.taskQueue ∧
    (RabbitMQTaskQueue.nack_task max_retries s message_id td reason now).1.resultQueue = s.resultQueue ∧
    (td.retry_count < max_retries →
      (RabbitMQTaskQueue.nack_task max_retries s message_id td reason now).1.retryQueue
        = s.retryQueue ++ [{ td with retry_count := td.retry_count + 1, last_error := some reason, failed_at := some now }] ∧
      (RabbitMQTaskQueue.nack_task max_retries s message_id td reason now).1.dlqQueue = s.dlqQueue) ∧
    (max_retries ≤ td.retry_count →
      (RabbitMQTaskQueue.nack_task max_retries s message_id td reason now).1.dlqQueue
        = s.dlqQueue ++ [{ td with retry_count := td.retry_count + 1, last_error := some reason, failed_at := some now, status := "dead_lettered" }] ∧
      (RabbitMQTaskQueue.nack_task max_retries s message_id td reason now).1.retryQueue
        = s.retryQueue) := by
  unfold RabbitMQTaskQueue.nack_task RabbitMQTaskQueue.ack_task
  by_cases h : td.retry_count < max_retries
  · simp [h]
  · simp [h, Nat.le_of_not_lt h]

/-- Witness for C3: a first failure with the default retry budget goes to
the retry queue with `retry_count = 1`. -/
theorem nack_retry_deadletter_policy_witness :
    (RabbitMQTaskQueue.nack_task 3 ⟨[], [], [], [], [4]⟩ 4
        ⟨0, 0, 5, 5, 10, 2, "t0", "pending", 0, none, none⟩ "boom" "t1").1.retryQueue
      = [⟨0, 0, 5, 5, 10, 2, "t0", "pending", 1, some "boom", some "t1"⟩] ∧
    (RabbitMQTaskQueue.nack_task 3 ⟨[], [], [], [], [4]⟩ 4
        ⟨0, 0, 5, 5, 10, 2, "t0", "pending", 0, none, none⟩ "boom" "t1").1.inflight = [] ∧
    (RabbitMQTaskQueue.nack_task 3 ⟨[], [], [], [], [4]⟩ 4
        ⟨0, 0, 5, 5, 10, 2, "t0", "pending", 0, none, none⟩ "boom" "t1").2 = true := by
  have h := nack_retry_deadletter_policy 3 ⟨[], [], [], [], [4]⟩ 4
    ⟨0, 0, 5, 5, 10, 2, "t0", "pending", 0, none, none⟩ "boom" "t1"
  refine ⟨?_, ?_, h.1⟩
  · rw [(h.2.2.2.2.1 (by decide)).1]
    decide
  · rw [h.2.1]
    decide

/-- C4 counterexample: on the streams backend a force seed does not purge
the result container; a pre-existing result record survives
`initialize_tasks(force=True)`. -/
theorem force_seed_streams_keeps_results :
    (TaskQueue.initialize_tasks
        ⟨TaskQueue.chunkList 10 5 "t0", [⟨"00000", "worker-1", "completed", "1.0", "t0", "d"⟩], [], true⟩
        10 5 true "t1").1.resultStream
      = [⟨"00000", "worker-1", "completed", "1.0", "t0", "d"⟩] ∧
    (TaskQueue.initialize_tasks
        ⟨TaskQueue.chunkList 10 5 "t0", [⟨"00000", "worker-1", "completed", "1.0", "t0", "d"⟩], [], true⟩
        10 5 true "t1").1.resultStream ≠ [] := by
  constructor
  · rfl
  · decide

/-- C4 as amended: a force seed purges the task, result, retry and
dead-letter queues before inserting on the broker backend; on the streams
backend it replaces the task stream with the new chunks but leaves the
result stream untouched (the streams backend has no retry or dead-letter
containers). -/
theorem force_seed_purge_behavior (rs : RedisState) (rb : RabbitState)
    (N S : Nat) (ts : String) :
    ((RabbitMQTaskQueue.initialize_tasks rb N S true ts).1.taskQueue
        = RabbitMQTaskQueue.chunkList N S ts ∧
     (RabbitMQTaskQueue.initialize_tasks rb N S true ts).1.resultQueue = [] ∧
     (RabbitMQTaskQueue.initialize_tasks rb N S true ts).1.retryQueue = [] ∧
     (RabbitMQTaskQueue.initialize_tasks rb N S true ts).1.dlqQueue = []) ∧
    ((TaskQueue.initialize_tasks rs N S true ts).1.taskStream
        = TaskQueue.chunkList N S ts ∧
     (TaskQueue.initialize_tasks rs N S true ts).1.resultStream = rs.resultStream) := by
  constructor
  · unfold RabbitMQTaskQueue.initialize_tasks
    simp
  · unfold TaskQueue.initialize_tasks
    by_cases h : 0 < rs.taskStream.length
    · simp [h]
    · have hnil : rs.taskStream = [] := by
        cases hs : rs.taskStream
        · rfl
        · rw [hs] at h
          simp at h
      simp [h, hnil]

/-- C5: with `force = false` and a non-empty task container, seeding
returns 0 and leaves every container unmodified, on both backends. -/
theorem seed_noforce_idempotent (rs : RedisState) (rb : RabbitState)
    (N S : Nat) (ts : String) :
    (0 < rs.taskStream.length →
      (TaskQueue.initialize_tasks rs N S false ts).2 = 0 ∧
      (TaskQueue.initialize_tasks rs N S false ts).1.taskStream = rs.taskStream ∧
      (TaskQueue.initialize_tasks rs N S false ts).1.resultStream = rs.resultStream ∧
      (TaskQueue.initialize_tasks rs N S false ts).1.pel = rs.pel) ∧
    (0 < rb.taskQueue.length →
      RabbitMQTaskQueue.initialize_tasks rb N S false ts = (rb, 0)) := by
  constructor
  · intro h
    unfold TaskQueue.initialize_tasks
    simp [h]
  · intro h
    unfold RabbitMQTaskQueue.initialize_tasks
    simp [h]

/-- Witness for C5: a second seed on a container already holding chunks
creates nothing and changes nothing, on both backends. -/
theorem seed_noforce_idempotent_witness :
    (TaskQueue.initialize_tasks ⟨TaskQueue.chunkList 10 5 "t0", [], [], true⟩ 10 5 false "t1").2 = 0 ∧
    (TaskQueue.initialize_tasks ⟨TaskQueue.chunkList 10 5 "t0", [], [], true⟩ 10 5 false "t1").1.taskStream
      = TaskQueue.chunkList 10 5 "t0" ∧
    RabbitMQTaskQueue.initialize_tasks ⟨RabbitMQTaskQueue.chunkList 10 5 "t0", [], [], [], []⟩ 10 5 false "t1"
      = (⟨RabbitMQTaskQueue.chunkList 10 5 "t0", [], [], [], []⟩, 0) := by
  have h := seed_noforce_idempotent ⟨TaskQueue.chunkList 10 5 "t0", [], [], true⟩
    ⟨RabbitMQTaskQueue.chunkList 10 5 "t0", [], [], [], []⟩ 10 5 "t1"
  have h1 := h.1 (by decide)
  exact ⟨h1.1, h1.2.1, h.2 (by decide)⟩

/-- C8: at bootstrap, worker 0 seeds exactly when the task container is
empty; a worker with a nonzero id never seeds, and on an empty container
it sleeps 2 seconds and proceeds. -/
theorem bootstrap_seeder_policy (worker_id stream_length total_parameters chunk_size : Nat) :
    ((QueueWorker.maybeInitializeTasks worker_id stream_length total_parameters chunk_size).any
        BootAction.isSeed = true ↔ worker_id = 0 ∧ stream_length = 0) ∧
    (worker_id = 0 → stream_length = 0 →
      QueueWorker.maybeInitializeTasks worker_id stream_length total_parameters chunk_size
        = [.seed total_parameters chunk_size false]) ∧
    (worker_id ≠ 0 → stream_length = 0 →
      QueueWorker.maybeInitializeTasks worker_id stream_length total_parameters chunk_size
        = [.sleep 2]) ∧
    (stream_length ≠ 0 →
      QueueWorker.maybeInitializeTasks worker_id stream_length total_parameters chunk_size = []) := by
  unfold QueueWorker.maybeInitializeTasks
  by_cases hw : worker_id = 0 <;> by_cases hl : stream_length = 0 <;>
    simp [hw, hl, BootAction.isSeed]

/-- Witness for C8: worker 1 on an empty container sleeps 2 seconds and
does not seed. -/
theorem bootstrap_seeder_policy_witness :
    QueueWorker.maybeInitializeTasks 1 0 10000 100 = [.sleep 2] ∧
    (QueueWorker.maybeInitializeTasks 1 0 10000 100).any BootAction.isSeed = false := by
  have h := bootstrap_seeder_policy 1 0 10000 100
  refine ⟨h.2.2.1 (by decide) rfl, ?_⟩
  have h2 := h.1
  rw [h.2.2.1 (by decide) rfl] at h2 ⊢
  decide

/-- C9: on the streams backend `ack_task` returns true exactly when the
message id is in the pending entry list, removing it; for an id that is
not pending it returns false and changes nothing. -/
theorem ack_task_pending_semantics (s : RedisState) (message_id : Nat) :
    ((TaskQueue.ack_task s message_id).2 = true ↔ message_id ∈ s.pel) ∧
    (TaskQueue.ack_task s message_id).1.pel = s.pel.erase message_id ∧
    (TaskQueue.ack_task s message_id).1.taskStream = s.taskStream ∧
    (TaskQueue.ack_task s message_id).1.resultStream = s.resultStream ∧
    (message_id ∉ s.pel → (TaskQueue.ack_task s message_id).1 = s) := by
  unfold TaskQueue.ack_task
  refine ⟨?_, rfl, rfl, rfl, ?_⟩
  · by_cases h : message_id ∈ s.pel <;> simp [h]
  · intro h
    simp [List.erase_of_not_mem h]

/-- Witness for C9: acking a pending id succeeds and removes exactly it;
the id is then no longer pending. -/
theorem ack_task_pending_semantics_witness :
    (TaskQueue.ack_task ⟨[], [], [5, 9], true⟩ 5).2 = true ∧
    (TaskQueue.ack_task ⟨[], [], [5, 9], true⟩ 5).1.pel = [9] ∧
    (TaskQueue.ack_task ⟨[], [], [9], true⟩ 5).2 = false ∧
    (TaskQueue.ack_task ⟨[], [], [9], true⟩ 5).1 = (⟨[], [], [9], true⟩ : RedisState) := by
  have h := ack_task_pending_semantics ⟨[], [], [5, 9], true⟩ 5
  have h2 := ack_task_pending_semantics ⟨[], [], [9], true⟩ 5
  refine ⟨h.1.mpr (by decide), ?_, ?_, h2.2.2.2.2 (by decide)⟩
  · rw [h.2.1]
    decide
  · by_contra hc
    simp only [Bool.not_eq_false] at hc
    exact absurd (h2.1.mp hc) (by decide)

/-- With the shutdown flag raised from iteration `t` on, the
per-parameter loop processes exactly the first `t` pending parameters. -/
lemma chunkLoop_some (t w : Nat) (now : String) :
    ∀ (ps : List Nat) (i : Nat),
      QueueWorker.chunkLoop (some t) w now ps i
        = (ps.take (t - i)).map fun p => QueueWorker.computeParameter p w now := by
  intro ps
  induction ps with
  | nil => intro i; simp [QueueWorker.chunkLoop]
  | cons p ps ih =>
    intro i
    by_cases h : t ≤ i
    · have h0 : t - i = 0 := by omega
      simp [QueueWorker.chunkLoop, killNow, h, h0]
    · have h1 : t - i = (t - (i + 1)) + 1 := by omega
      simp [QueueWorker.chunkLoop, killNow, h, h1, ih]

/-- C10: a chunk whose processing completes with zero per-parameter
results yields the summary `sum = 0, count = 0, min = 0, max = 0,
avg = 0`; the min, max and avg computations are guarded against the empty
result list. -/
theorem empty_chunk_summary_zero (task : ClaimedTask) (w : Nat) (now : String)
    (sig : Option Nat) :
    (QueueWorker.processChunk task w now sig).params_processed = 0 →
    (QueueWorker.processChunk task w now sig).result_summary = ⟨0, 0, 0, 0, 0⟩ := by
  unfold QueueWorker.processChunk
  dsimp only
  intro h
  rw [List.length_eq_zero] at h
  simp [h]

/-- Witness for C10: shutdown before the first parameter of a ten-wide
chunk yields the all-zero summary. -/
theorem empty_chunk_summary_zero_witness :
    (QueueWorker.processChunk ⟨0, 0, 10, 3⟩ 1 "t" (some 0)).result_summary
      = ⟨0, 0, 0, 0, 0⟩ :=
  empty_chunk_summary_zero ⟨0, 0, 10, 3⟩ 1 "t" (some 0) rfl

/-- C1 counterexample: a chunk of ten parameters interrupted by the
shutdown signal after three of them is still published and still acked by
the try block of `_process_tasks`. -/
theorem interrupted_chunk_published_cex :
    (QueueWorker.handleClaimedTask 1 "t" ⟨0, 0, 10, 7⟩ (some 3) none true).any
        Effect.isPublish = true ∧
    (QueueWorker.handleClaimedTask 1 "t" ⟨0, 0, 10, 7⟩ (some 3) none true).any
        Effect.isAck = true ∧
    (QueueWorker.processChunk ⟨0, 0, 10, 7⟩ 1 "t" (some 3)).params_processed = 3 ∧
    (QueueWorker.processChunk ⟨0, 0, 10, 7⟩ 1 "t" (some 3)).interrupted = true :=
  ⟨rfl, rfl, rfl, rfl⟩

/-- C1 as amended: a chunk whose per-parameter iteration is interrupted
by the shutdown signal is nevertheless published — with a summary over
only the parameters completed before the interruption — and then acked;
partial chunks are not discarded. -/
theorem interrupted_chunk_published_acked (w : Nat) (now : String)
    (task : ClaimedTask) (t : Nat) (hasNack : Bool)
    (ht : t < task.end_param - task.start_param) :
    QueueWorker.handleClaimedTask w now task (some t) none hasNack
      = [.publish task.chunk_id (QueueWorker.processChunk task w now (some t)).result_summary,
         .ack task.message_id] ∧
    (QueueWorker.processChunk task w now (some t)).params_processed = t ∧
    (QueueWorker.processChunk task w now (some t)).result_summary.count = t ∧
    (QueueWorker.processChunk task w now (some t)).interrupted = true := by
  have hlen : (QueueWorker.chunkLoop (some t) w now
      (List.range' task.start_param (task.end_param - task.start_param)) 0).length = t := by
    rw [chunkLoop_some]
    simp only [List.length_map, List.length_take, List.length_range']
    omega
  refine ⟨rfl, ?_, ?_, ?_⟩
  · unfold QueueWorker.processChunk
    dsimp only
    exact hlen
  · unfold QueueWorker.processChunk
    dsimp only
    exact hlen
  · unfold QueueWorker.processChunk
    dsimp only
    rw [hlen]
    simp [killNow]

/-- Witness for C1 as amended: a five-wide chunk interrupted after two
parameters is published with a two-entry summary and acked. -/
theorem interrupted_chunk_published_acked_witness :
    QueueWorker.handleClaimedTask 2 "u" ⟨1, 0, 5, 9⟩ (some 2) none false
      = [.publish 1 (QueueWorker.processChunk ⟨1, 0, 5, 9⟩ 2 "u" (some 2)).result_summary,
         .ack 9] ∧
    (QueueWorker.processChunk ⟨1, 0, 5, 9⟩ 2 "u" (some 2)).params_processed = 2 := by
  have h := interrupted_chunk_published_acked 2 "u" ⟨1, 0, 5, 9⟩ 2 false (by decide)
  exact ⟨h.1, h.2.1⟩

/-- With `idle_timeout_seconds ≥ 5` the empty-read budget is exactly
`idle_timeout_seconds / 5`. -/
lemma maxEmptyReads_eq (cfg : LoopCfg) (h : 5 ≤ cfg.idle_timeout_seconds) :
    maxEmptyReads cfg = cfg.idle_timeout_seconds / blockTimeSeconds := by
  unfold maxEmptyReads
  have : 1 ≤ cfg.idle_timeout_seconds / blockTimeSeconds := by
    rw [Nat.le_div_iff_mul_le (by norm_num [blockTimeSeconds])]
    simpa [blockTimeSeconds] using h
  omega

/-- C7: in the main loop, an empty claim increments the consecutive-empty
counter; when the counter reaches `idle_timeout / block_timeout` the
worker performs one final stale reclaim, continues with the counter reset
if it recovered work, and exits otherwise; and the loop is never exited
without that final reclaim having run and returned no work.  The
wall-clock hypotheses say that the periodic check interval has not yet
elapsed at the top of the iteration and that the clock reads at least the
stale-check interval (epoch seconds always do). -/
theorem idle_exit_policy (cfg : LoopCfg) (st : LoopState) (env : IterEnv)
    (hidle : 5 ≤ cfg.idle_timeout_seconds)
    (hper : env.now - st.last_stale_check_time < cfg.stale_check_interval_seconds)
    (hnow2 : cfg.stale_check_interval_seconds ≤ env.now2)
    (hclaim : env.claimed = none) :
    (st.consecutive_empty + 1 < cfg.idle_timeout_seconds / 5 →
      (QueueWorker.loopIter cfg st env).exited = false ∧
      (QueueWorker.loopIter cfg st env).state.consecutive_empty = st.consecutive_empty + 1 ∧
      (QueueWorker.loopIter cfg st env).forcedReclaimed = false) ∧
    (cfg.idle_timeout_seconds / 5 ≤ st.consecutive_empty + 1 →
      (QueueWorker.loopIter cfg st env).forcedReclaimed = true ∧
      (0 < env.forcedStale →
        (QueueWorker.loopIter cfg st env).exited = false ∧
        (QueueWorker.loopIter cfg st env).state.consecutive_empty = 0) ∧
      (env.forcedStale = 0 → (QueueWorker.loopIter cfg st env).exited = true)) ∧
    (∀ (st2 : LoopState) (env2 : IterEnv),
      cfg.stale_check_interval_seconds ≤ env2.now2 →
      (QueueWorker.loopIter cfg st2 env2).exited = true →
      (QueueWorker.loopIter cfg st2 env2).forcedReclaimed = true ∧
      env2.forcedStale = 0 ∧ env2.claimed = none) := by
  have hmax : maxEmptyReads cfg = cfg.idle_timeout_seconds / 5 := by
    simpa [blockTimeSeconds] using maxEmptyReads_eq cfg hidle
  have hgate2 : ¬ (env.now2 - 0 < cfg.stale_check_interval_seconds) := by omega
  have hgate2b : ¬ (env.now2 < cfg.stale_check_interval_seconds) := by omega
  refine ⟨?_, ?_, ?_⟩
  · intro hlt
    have hm : ¬ (maxEmptyReads cfg ≤ st.consecutive_empty + 1) := by omega
    simp [QueueWorker.loopIter, QueueWorker.checkAndClaimStale, hclaim, hper, hm]
  · intro hge
    have hm : maxEmptyReads cfg ≤ st.consecutive_empty + 1 := by omega
    by_cases hf : 0 < env.forcedStale
    · simp [QueueWorker.loopIter, QueueWorker.checkAndClaimStale, hclaim, hper, hm,
        hgate2, hgate2b, hf]
      omega
    · have hf0 : env.forcedStale = 0 := by omega
      simp [QueueWorker.loopIter, QueueWorker.checkAndClaimStale, hclaim, hper, hm,
        hgate2, hgate2b, hf0]
  · intro st2 env2 h2
    have hg2 : ¬ (env2.now2 - 0 < cfg.stale_check_interval_seconds) := by omega
    have hg2b : ¬ (env2.now2 < cfg.stale_check_interval_seconds) := by omega
    cases hc : env2.claimed with
    | some task => simp [QueueWorker.loopIter, hc]
    | none =>
      simp only [QueueWorker.loopIter, QueueWorker.checkAndClaimStale, hc]
      split_ifs <;> simp_all

/-- Witness for C7: with a 30-second idle budget, the sixth consecutive
empty read triggers the final reclaim, and when it recovers nothing the
loop exits. -/
theorem idle_exit_policy_witness :
    (QueueWorker.loopIter ⟨30, 30⟩ ⟨5, 100⟩ ⟨100, 0, none, 120, 0⟩).exited = true ∧
    (QueueWorker.loopIter ⟨30, 30⟩ ⟨5, 100⟩ ⟨100, 0, none, 120, 0⟩).forcedReclaimed = true := by
  have h := idle_exit_policy ⟨30, 30⟩ ⟨5, 100⟩ ⟨100, 0, none, 120, 0⟩
    (by decide) (by decide) (by decide) rfl
  have h2 := h.2.1 (by decide)
  exact ⟨h2.2.2 rfl, h2.1⟩

/-- Ceiling-division bounds for the chunk count. -/
lemma numChunks_bounds (N S : Nat) (hN : 0 < N) (hS : 0 < S) :
    0 < numChunks N S ∧ N ≤ numChunks N S * S ∧ (numChunks N S - 1) * S < N := by
  have hq1 : 1 ≤ numChunks N S := by
    unfold numChunks
    rw [Nat.one_le_div_iff hS]
    omega
  have hdm := Nat.div_add_mod (N + S - 1) S
  have hmod : (N + S - 1) % S < S := Nat.mod_lt _ hS
  have hsq : S * ((N + S - 1) / S) = N + S - 1 - (N + S - 1) % S :=
    Nat.eq_sub_of_add_eq hdm
  refine ⟨hq1, ?_, ?_⟩
  · show N ≤ (N + S - 1) / S * S
    rw [Nat.mul_comm, hsq]
    omega
  · show ((N + S - 1) / S - 1) * S < N
    rw [Nat.sub_mul, one_mul, Nat.mul_comm, hsq]
    omega

/-- The half-open intervals of the seeded chunks are ordered: an earlier
chunk ends no later than a later chunk starts. -/
lemma chunk_bounds_pairwise (N S : Nat) :
    (List.range (numChunks N S)).Pairwise
      (fun i j => min (i * S + S) N ≤ j * S ∨ min (j * S + S) N ≤ i * S) := by
  refine (List.pairwise_lt_range (numChunks N S)).imp ?_
  intro i j hij
  left
  calc min (i * S + S) N ≤ i * S + S := min_le_left _ _
    _ = (i + 1) * S := by ring
    _ ≤ j * S := Nat.mul_le_mul_right S hij

/-- The chunk intervals cover exactly `[0, N)`. -/
lemma chunk_bounds_cover (N S : Nat) (hN : 0 < N) (hS : 0 < S) (x : Nat) :
    x < N ↔ ∃ i, i < numChunks N S ∧ i * S ≤ x ∧ x < min (i * S + S) N := by
  constructor
  · intro hx
    refine ⟨x / S, ?_, Nat.div_mul_le_self x S, ?_⟩
    · rw [Nat.div_lt_iff_lt_mul hS]
      exact lt_of_lt_of_le hx (numChunks_bounds N S hN hS).2.1
    · refine lt_min ?_ hx
      have h1 := Nat.div_add_mod x S
      have h2 := Nat.mod_lt x hS
      have h3 : x / S * S = S * (x / S) := Nat.mul_comm _ _
      omega
  · rintro ⟨i, _, _, hlt⟩
    exact lt_of_lt_of_le hlt (min_le_right _ _)

/-- C2: for `N, S > 0` the chunks created by `seed`/`initialize_tasks`
partition `[0, N)` — pairwise disjoint half-open intervals whose union is
`[0, N)` — the number of chunks is the ceiling `(N + S - 1) / S`, and the
final chunk holds `N - (total_chunks - 1) * S` parameters; identically on
both backends. -/
theorem seed_chunks_partition (N S : Nat) (hN : 0 < N) (hS : 0 < S) (ts : String) :
    (TaskQueue.chunkList N S ts).length = (N + S - 1) / S ∧
    (RabbitMQTaskQueue.chunkList N S ts).length = (N + S - 1) / S ∧
    (TaskQueue.chunkList N S ts).Pairwise
      (fun c d => c.end_param ≤ d.start_param ∨ d.end_param ≤ c.start_param) ∧
    (RabbitMQTaskQueue.chunkList N S ts).Pairwise
      (fun c d => c.end_param ≤ d.start_param ∨ d.end_param ≤ c.start_param) ∧
    (∀ x, x < N ↔ ∃ c ∈ TaskQueue.chunkList N S ts, c.start_param ≤ x ∧ x < c.end_param) ∧
    (∀ x, x < N ↔ ∃ c ∈ RabbitMQTaskQueue.chunkList N S ts, c.start_param ≤ x ∧ x < c.end_param) ∧
    ((TaskQueue.chunkList N S ts).getLast?.map fun c => c.params_count)
      = some (N - (numChunks N S - 1) * S) ∧
    ((RabbitMQTaskQueue.chunkList N S ts).getLast?.map fun c => c.params_count)
      = some (N - (numChunks N S - 1) * S) := by
  obtain ⟨hk, hNk, hlast⟩ := numChunks_bounds N S hN hS
  have hkk : numChunks N S = (numChunks N S - 1) + 1 := by omega
  have hlastval : min ((numChunks N S - 1) * S + S) N - (numChunks N S - 1) * S
      = N - (numChunks N S - 1) * S := by
    have : (numChunks N S - 1) * S + S = numChunks N S * S := by
      conv_rhs => rw [hkk]
      ring
    rw [this, min_eq_right hNk]
  refine ⟨?_, ?_, ?_, ?_, ?_, ?_, ?_, ?_⟩
  · simp [TaskQueue.chunkList, numChunks]
  · simp [RabbitMQTaskQueue.chunkList, numChunks]
  · unfold TaskQueue.chunkList
    rw [List.pairwise_map]
    exact chunk_bounds_pairwise N S
  · unfold RabbitMQTaskQueue.chunkList
    rw [List.pairwise_map]
    exact chunk_bounds_pairwise N S
  · intro x
    rw [chunk_bounds_cover N S hN hS x]
    simp [TaskQueue.chunkList, List.mem_map, List.mem_range]
  · intro x
    rw [chunk_bounds_cover N S hN hS x]
    simp [RabbitMQTaskQueue.chunkList, List.mem_map, List.mem_range]
  · unfold TaskQueue.chunkList
    conv_lhs => rw [hkk, List.range_succ, List.map_append]
    simp only [List.map_cons, List.map_nil]
    rw [List.getLast?_concat]
    simp [hlastval]
  · unfold RabbitMQTaskQueue.chunkList
    conv_lhs => rw [hkk, List.range_succ, List.map_append]
    simp only [List.map_cons, List.map_nil]
    rw [List.getLast?_concat]
    simp [hlastval]

/-- Witness for C2: seeding 10 parameters in chunks of 4 yields 3 chunks,
a final chunk of 2 parameters, and parameter 5 falls in exactly an
existing chunk interval. -/
theorem seed_chunks_partition_witness :
    (TaskQueue.chunkList 10 4 "t").length = 3 ∧
    ((TaskQueue.chunkList 10 4 "t").getLast?.map fun c => c.params_count) = some 2 ∧
    (∃ c ∈ TaskQueue.chunkList 10 4 "t", c.start_param ≤ 5 ∧ 5 < c.end_param) := by
  have h := seed_chunks_partition 10 4 (by decide) (by decide) "t"
  refine ⟨?_, ?_, (h.2.2.2.2.1 5).mp (by decide)⟩
  · rw [h.1]
  · rw [h.2.2.2.2.2.2.1]
    rfl

/-- Every character `hexChar` emits for a nibble is a lowercase hex digit. -/
lemma hexChar_elem (x : Nat) : hexDigits.elem (hexChar (x % 16)) = true := by
  have h : ∀ n, n < 16 → hexDigits.elem (hexChar n) = true := by decide
  exact h _ (Nat.mod_lt _ (by norm_num))

/-- Every character of a hex digest is a lowercase hex digit. -/
lemma digest_all_hex (m : List Nat) : ∀ c ∈ sha256hex m, hexDigits.elem c = true := by
  have hw : ∀ (v : Nat), ∀ c ∈ wordHex v, hexDigits.elem c = true := by
    intro v c hcw
    unfold wordHex at hcw
    simp only [List.mem_cons, List.not_mem_nil, or_false] at hcw
    rcases hcw with h | h | h | h | h | h | h | h <;> (rw [h]; exact hexChar_elem _)
  unfold sha256hex hash8Hex
  simp only [List.forall_mem_append]
  exact ⟨⟨⟨⟨⟨⟨⟨hw _, hw _⟩, hw _⟩, hw _⟩, hw _⟩, hw _⟩, hw _⟩, hw _⟩

/-- A hex digest has 64 characters. -/
lemma sha256hex_length (m : List Nat) : (sha256hex m).length = 64 := by
  simp [sha256hex, hash8Hex, wordHex]

/-- C6: the numeric result of the compute kernel equals
`(param_id * 7 + 13) mod 1000 + fractional(param_id mod 100)`, its digest
is the first 16 characters of the SHA-256 hex digest of the deterministic
string encoding of `(param_id, worker_id)` — 16 lowercase hex digits —
both are independent of the wall clock, and the two worker classes
compute identically. -/
theorem compute_kernel_spec (p w : Nat) (now now2 : String) :
    (QueueWorker.computeParameter p w now).result
      = ((p * 7 + 13) % 1000 : Nat) + fractional (p % 100) ∧
    (QueueWorker.computeParameter p w now).hash
      = (sha256hex (strBytes (QueueWorker.inputString p w))).take 16 ∧
    (QueueWorker.computeParameter p w now).hash.length = 16 ∧
    (QueueWorker.computeParameter p w now).hash.all (fun c => hexDigits.elem c) = true ∧
    (QueueWorker.computeParameter p w now).result
      = (QueueWorker.computeParameter p w now2).result ∧
    (QueueWorker.computeParameter p w now).hash
      = (QueueWorker.computeParameter p w now2).hash ∧
    QueueWorker.computeParameter = DistributedWorker.computeParameter := by
  refine ⟨?_, rfl, ?_, ?_, rfl, rfl, rfl⟩
  · unfold QueueWorker.computeParameter
    dsimp only
    rw [pyFloat_fraction (p % 100) (Nat.mod_lt _ (by norm_num))]
  · unfold QueueWorker.computeParameter
    dsimp only
    rw [List.length_take, sha256hex_length]
    norm_num
  · unfold QueueWorker.computeParameter
    dsimp only
    rw [List.all_eq_true]
    intro c hc
    exact digest_all_hex _ c (List.take_subset 16 _ hc)

end TTG
